import Mathlib

set_option maxRecDepth 100000

/-!
Shallow embedding of `news_digest_script.py` (daily-news-digest-v2).

The script fetches news articles and sports scores over HTTP, assembles an
HTML digest string and emails it.  We model:
  * provider JSON payloads as the inductive type `Json`;
  * the Python dictionary/list/string primitives the script uses
    (`dict.get`, slicing, indexing, `len`, iteration, `str()` interpolation,
    `str.format`) as partial operations returning `Except String _`, where
    `Except.error` stands for a raised Python exception;
  * the network and SMTP as an environment `Env` mapping each request to a
    response (`Except.error` = transport/HTTP-status/JSON-decode failure);
  * each adapter (`fetch_news`, `fetch_nba_scores`, `fetch_nfl_scores`,
    `fetch_soccer_scores`) as a total function returning its records plus the
    list of diagnostics it printed, matching the `try/except print/return`
    structure of the source;
  * `generate_html_digest`, `send_email` and `main` over that environment.
-/

/-- JSON values as decoded by `response.json()`. -/
inductive Json where
  | null
  | bool (b : Bool)
  | num (n : Int)
  | str (s : String)
  | arr (elems : List Json)
  | obj (fields : List (String × Json))

/-- Python `d.get(key, default)`: returns the stored value when the key is
present (even when that value is `None`), the default when it is absent, and
raises `AttributeError` when the receiver is not a dict. -/
def pyGet : Json → String → Json → Except String Json
  | Json.obj kvs, k, d =>
      match kvs.find? (fun p => p.1 == k) with
      | some p => Except.ok p.2
      | none => Except.ok d
  | Json.null, k, _ => Except.error ("AttributeError: NoneType has no attribute get (" ++ k ++ ")")
  | _, k, _ => Except.error ("AttributeError: object has no attribute get (" ++ k ++ ")")

/-- Python slicing `v[:n]`: keeps the first `n` elements of a list or the
first `n` characters of a string; raises `TypeError` otherwise (in
particular on `None`). -/
def pySlice : Json → Nat → Except String Json
  | Json.arr xs, n => Except.ok (Json.arr (xs.take n))
  | Json.str s, n => Except.ok (Json.str (String.mk (s.data.take n)))
  | Json.null, _ => Except.error "TypeError: NoneType object is not subscriptable"
  | _, _ => Except.error "TypeError: object is not subscriptable"

/-- Python indexing `v[i]` with a non-negative index. -/
def pyIndex : Json → Nat → Except String Json
  | Json.arr xs, i =>
      match xs.get? i with
      | some x => Except.ok x
      | none => Except.error "IndexError: list index out of range"
  | Json.str s, i =>
      match s.data.get? i with
      | some c => Except.ok (Json.str (String.mk [c]))
      | none => Except.error "IndexError: string index out of range"
  | _, _ => Except.error "TypeError: object is not subscriptable"

/-- Python `len(v)`. -/
def pyLen : Json → Except String Nat
  | Json.arr xs => Except.ok xs.length
  | Json.str s => Except.ok s.data.length
  | Json.obj kvs => Except.ok kvs.length
  | _ => Except.error "TypeError: object has no len"

/-- Python `for x in v`: lists yield elements, strings yield one-character
strings, dicts yield their keys; other values raise `TypeError`. -/
def pyIter : Json → Except String (List Json)
  | Json.arr xs => Except.ok xs
  | Json.str s => Except.ok (s.data.map (fun c => Json.str (String.mk [c])))
  | Json.obj kvs => Except.ok (kvs.map (fun p => Json.str p.1))
  | _ => Except.error "TypeError: object is not iterable"

/-- Python `str(v)` as used by f-string interpolation.  Containers are
rendered with a fixed marker: the script only ever interpolates values
obtained from `.get` chains, and no claim depends on `str()` of a container,
so their exact textual form is left unmodelled. -/
def pyStr : Json → String
  | Json.null => "None"
  | Json.bool true => "True"
  | Json.bool false => "False"
  | Json.num n => toString n
  | Json.str s => s
  | Json.arr _ => "[...]"
  | Json.obj _ => "\x7b...\x7d"

/-- One step of Python `str.format` processing (the subset the script's
templates can reach): literal characters are copied, `\x7b\x7b`/`\x7d\x7d`
are brace escapes, an empty replacement field (possibly with a format spec)
substitutes the single positional argument, and a field whose name is
non-empty raises `KeyError` with that name, exactly as CPython does for
keyword fields that were not supplied.  The fuel argument only bounds the
recursion; it is at least the template length at every call site, so the
`RecursionError` branch is unreachable. -/
def fmtAux : Nat → List Char → String → Except String (List Char)
  | 0, _, _ => Except.error "RecursionError: format"
  | _ + 1, [], _ => Except.ok []
  | fuel + 1, c :: rest, arg =>
    if c == '\x7b' then
      match rest with
      | '\x7b' :: rest2 => (fmtAux fuel rest2 arg).map (fun r => '\x7b' :: r)
      | _ =>
        let field := rest.takeWhile (fun d => d != '\x7d')
        match rest.dropWhile (fun d => d != '\x7d') with
        | [] => Except.error "ValueError: Single \x7b encountered in format string"
        | _ :: rest2 =>
          let name := field.takeWhile (fun d => d != ':' && d != '!')
          if name.isEmpty then
            (fmtAux fuel rest2 arg).map (fun r => arg.data ++ r)
          else
            Except.error ("KeyError: \x27" ++ String.mk name ++ "\x27")
    else if c == '\x7d' then
      match rest with
      | '\x7d' :: rest2 => (fmtAux fuel rest2 arg).map (fun r => '\x7d' :: r)
      | _ => Except.error "ValueError: Single \x7d encountered in format string"
    else
      (fmtAux fuel rest arg).map (fun r => c :: r)

/-- Python `template.format(arg)` for a single positional argument. -/
def pyFormat (template : String) (arg : String) : Except String String :=
  (fmtAux (template.data.length + 1) template.data arg).map String.mk

/-- The external world of one run: HTTP GET by full request URL (an error is
any transport failure, non-2xx status, timeout or JSON-decode failure),
SMTP delivery of the final HTML, and the two formatted `datetime.now()`
strings the script uses. -/
structure Env where
  http : String → Except String Json
  smtp : String → Except String Unit
  dateHeader : String
  dateYMD : String

/-- A normalized news record, i.e. the dict built in `fetch_news`.  The six
keys are always present; the values are whatever the `.get` chains produced,
so they can be any `Json` (including `null`). -/
structure Article where
  title : Json
  description : Json
  url : Json
  source : Json
  image : Json
  publishedAt : Json

/-- A normalized score record, i.e. the dict built in the scoreboard
fetchers. -/
structure Game where
  home : Json
  away : Json
  home_score : Json
  away_score : Json
  status : Json

/-- Return value of `fetch_nba_scores`. -/
structure NbaResult where
  games : List Game
  date : String

/-- Return value of `fetch_nfl_scores`. -/
structure NflResult where
  games : List Game

/-- The NewsAPI request issued by `fetch_news` (the static parameters and the
API key do not distinguish requests, so the key is identified by the query
and the page size). -/
def newsRequest (query : String) (num_articles : Nat) : String :=
  "https://newsapi.org/v2/everything?q=" ++ query ++
    "&sortBy=popularity&language=en&pageSize=" ++ toString num_articles

def nbaUrl : String :=
  "https://site.api.espn.com/apis/site/v2/sports/basketball/nba/scoreboard"

def nflUrl : String :=
  "https://site.api.espn.com/apis/site/v2/sports/football/nfl/scoreboard"

def soccerUrl (league_id : String) : String :=
  "https://site.api.espn.com/apis/site/v2/sports/" ++ league_id ++ "/scoreboard"

/-- Body of the per-article loop of `fetch_news` (lines 44-51). -/
def extractArticle (article : Json) : Except String Article := do
  let title ← pyGet article "title" (Json.str "")
  let description ← pyGet article "description" (Json.str "")
  let url ← pyGet article "url" (Json.str "")
  let sourceObj ← pyGet article "source" (Json.obj [])
  let source ← pyGet sourceObj "name" (Json.str "")
  let image ← pyGet article "urlToImage" (Json.str "")
  let publishedAt ← pyGet article "publishedAt" (Json.str "")
  Except.ok ⟨title, description, url, source, image, publishedAt⟩

/-- The `for article in ...: articles.append(...)` loop of `fetch_news`. -/
def extractArticles : List Json → Except String (List Article)
  | [] => Except.ok []
  | a :: rest => do
      let x ← extractArticle a
      let xs ← extractArticles rest
      Except.ok (x :: xs)

/-- The `try`-block of `fetch_news`, parameterized by the HTTP response. -/
def fetch_news_body (resp : Except String Json) (num_articles : Nat) :
    Except String (List Article) := do
  let data ← resp
  let articlesJ ← pyGet data "articles" (Json.arr [])
  let sliced ← pySlice articlesJ num_articles
  let items ← pyIter sliced
  extractArticles items

/-- `fetch_news`: any exception inside the body is caught, printed and
converted into an empty list (lines 53-55). -/
def fetch_news (env : Env) (query : String) (num_articles : Nat) :
    List Article × List String :=
  match fetch_news_body (env.http (newsRequest query num_articles)) num_articles with
  | Except.ok articles => (articles, [])
  | Except.error e =>
      ([], ["Error fetching news for \x27" ++ query ++ "\x27: " ++ e])

/-- Body of the per-event loop shared verbatim by `fetch_nba_scores`,
`fetch_nfl_scores` and `fetch_soccer_scores` (lines 66-75, 90-99, 127-136).
`none` means the event was skipped by the `len(competitors) >= 2` guard. -/
def extractEvent (event : Json) : Except String (Option Game) := do
  let compsJ ← pyGet event "competitions" (Json.arr [Json.obj []])
  let comp0 ← pyIndex compsJ 0
  let competitorsJ ← pyGet comp0 "competitors" (Json.arr [])
  let n ← pyLen competitorsJ
  if n ≥ 2 then
    let c0 ← pyIndex competitorsJ 0
    let team0 ← pyGet c0 "team" (Json.obj [])
    let home ← pyGet team0 "displayName" (Json.str "")
    let c1 ← pyIndex competitorsJ 1
    let team1 ← pyGet c1 "team" (Json.obj [])
    let away ← pyGet team1 "displayName" (Json.str "")
    let home_score ← pyGet c0 "score" (Json.str "-")
    let away_score ← pyGet c1 "score" (Json.str "-")
    let compsJ2 ← pyGet event "competitions" (Json.arr [Json.obj []])
    let comp0b ← pyIndex compsJ2 0
    let statusObj ← pyGet comp0b "status" (Json.obj [])
    let typeObj ← pyGet statusObj "type" (Json.obj [])
    let status ← pyGet typeObj "description" (Json.str "TBD")
    Except.ok (some ⟨home, away, home_score, away_score, status⟩)
  else
    Except.ok none

/-- The `for event in ...: games.append(...)` loop of the three scoreboard
fetchers. -/
def scoreboardGames : List Json → Except String (List Game)
  | [] => Except.ok []
  | e :: rest => do
      let g? ← extractEvent e
      let gs ← scoreboardGames rest
      Except.ok (match g? with | some g => g :: gs | none => gs)

/-- The `try`-block of `fetch_nba_scores` / `fetch_nfl_scores`. -/
def scoreboard_body (resp : Except String Json) : Except String (List Game) := do
  let data ← resp
  let eventsJ ← pyGet data "events" (Json.arr [])
  let events ← pyIter eventsJ
  scoreboardGames events

/-- `fetch_nba_scores` (lines 57-79). -/
def fetch_nba_scores (env : Env) : NbaResult × List String :=
  match scoreboard_body (env.http nbaUrl) with
  | Except.ok games => ({ games := games, date := env.dateYMD }, [])
  | Except.error e => ({ games := [], date := env.dateYMD }, ["Error fetching NBA scores: " ++ e])

/-- `fetch_nfl_scores` (lines 81-103). -/
def fetch_nfl_scores (env : Env) : NflResult × List String :=
  match scoreboard_body (env.http nflUrl) with
  | Except.ok games => ({ games := games }, [])
  | Except.error e => ({ games := [] }, ["Error fetching NFL scores: " ++ e])

/-- The `league_map` dict of `fetch_soccer_scores` (lines 108-115). -/
def league_map : List (String × String) :=
  [("premier-league", "soccer/eng.1"),
   ("champions-league", "soccer/uefa.champions"),
   ("europa-league", "soccer/uefa.europa"),
   ("championship", "soccer/eng.2"),
   ("fa-cup", "soccer/eng.fa"),
   ("carabao-cup", "soccer/eng.cup")]

/-- `league_map.get(league, '')` followed by the `if not league_id` test:
`none` models the falsy empty string. -/
def leagueId (league : String) : Option String :=
  (league_map.find? (fun p => p.1 == league)).map (fun p => p.2)

/-- The `try`-block of `fetch_soccer_scores` after the league lookup; note
the `[:5]` slice ("Top 5 games", line 127). -/
def soccer_body (resp : Except String Json) : Except String (List Game) := do
  let data ← resp
  let eventsJ ← pyGet data "events" (Json.arr [])
  let sliced ← pySlice eventsJ 5
  let events ← pyIter sliced
  scoreboardGames events

/-- `fetch_soccer_scores` (lines 105-140).  An unrecognized league returns an
empty list without logging (lines 117-119, inside the `try`, before any
network call). -/
def fetch_soccer_scores (env : Env) (league : String) : List Game × List String :=
  match leagueId league with
  | none => ([], [])
  | some league_id =>
      match soccer_body (env.http (soccerUrl league_id)) with
      | Except.ok games => (games, [])
      | Except.error e => ([], ["Error fetching " ++ league ++ " scores: " ++ e])

/-- The big triple-quoted template of lines 144-166, to which
`.format(datetime.now().strftime(...))` is applied.  The CSS braces are NOT
doubled in the source, so the first replacement field `str.format` meets is
`\x7b font-family: ... \x7d`. -/
def headerTemplate : String :=
  "\n        <html>\n            <head>\n                <style>\n                    body \x7b font-family: Arial, sans-serif; background-color: #f5f5f5; \x7d\n                    .container \x7b max-width: 900px; margin: 0 auto; background: white; padding: 20px; \x7d\n                    h1 \x7b color: #333; border-bottom: 3px solid #007bff; padding-bottom: 10px; \x7d\n                    h2 \x7b color: #007bff; margin-top: 30px; border-left: 4px solid #007bff; padding-left: 10px; \x7d\n                    .article \x7b margin: 15px 0; padding: 15px; border-left: 4px solid #ddd; \x7d\n                    .article-title \x7b font-weight: bold; color: #333; \x7d\n                    .article-summary \x7b color: #666; font-size: 14px; margin: 5px 0; \x7d\n                    .article-source \x7b color: #999; font-size: 12px; \x7d\n                    .article-link \x7b color: #007bff; text-decoration: none; font-size: 12px; \x7d\n                    .score-item \x7b padding: 10px; margin: 5px 0; background: #f9f9f9; border-radius: 4px; \x7d\n                    .score-teams \x7b font-weight: bold; \x7d\n                    .score-final \x7b color: #007bff; font-weight: bold; \x7d\n                    .footer \x7b text-align: center; color: #999; font-size: 12px; margin-top: 40px; padding-top: 20px; border-top: 1px solid #ddd; \x7d\n                </style>\n            </head>\n            <body>\n                <div class=\"container\">\n                    <h1>üì∞ Daily News Digest - \x7b\x7d</h1>\n        "

/-- The footer appended at lines 238-245. -/
def htmlFooter : String :=
  "\n                    <div class=\"footer\">\n                        <p>This is an automated daily digest. Please do not reply to this email.</p>\n                    </div>\n                </div>\n            </body>\n        </html>\n        "

/-- The fixed `news_sections` configuration (lines 169-179), in source
order: section title, query, article count. -/
def news_sections : List (String × String × Nat) :=
  [("Top 5 US News", "US news", 5),
   ("Top 5 Europe News", "Europe news", 5),
   ("Top 5 Africa News", "Africa news", 5),
   ("Top 3 India News", "India news", 3),
   ("Top 3 China News", "China news", 3),
   ("Top 5 NBA News", "NBA basketball", 5),
   ("Top 5 NFL News", "NFL football", 5),
   ("Top 5 Premier League News", "English Premier League", 5),
   ("Top 2 West Ham News", "West Ham United", 2)]

/-- The fixed `soccer_leagues` configuration (lines 215-222). -/
def soccer_leagues : List (String × String) :=
  [("Premier League", "premier-league"),
   ("Champions League", "champions-league"),
   ("Europa League", "europa-league"),
   ("EFL Championship", "championship"),
   ("FA Cup", "fa-cup"),
   ("Carabao Cup", "carabao-cup")]

/-- The summary fragment of the article template:
`\x7barticle['description'][:200]\x7d...` (line 190).  The ellipsis is appended
unconditionally; slicing `None` raises `TypeError`. -/
def articleSummaryHtml (description : Json) : Except String String := do
  let sliced ← pySlice description 200
  Except.ok (pyStr sliced ++ "...")

/-- The article `<div>` template (lines 187-194). -/
def renderArticle (a : Article) : Except String String := do
  let summary ← articleSummaryHtml a.description
  Except.ok ("\n                    <div class=\"article\">\n                        <div class=\"article-title\">"
    ++ pyStr a.title
    ++ "</div>\n                        <div class=\"article-summary\">"
    ++ summary
    ++ "</div>\n                        <div class=\"article-source\">"
    ++ pyStr a.source
    ++ "</div>\n                        <a href=\""
    ++ pyStr a.url
    ++ "\" class=\"article-link\">Read full article ‚Üí</a>\n                    </div>\n                    ")

/-- The `for article in articles` rendering loop. -/
def renderArticles : List Article → Except String String
  | [] => Except.ok ""
  | a :: rest => do
      let h ← renderArticle a
      let r ← renderArticles rest
      Except.ok (h ++ r)

/-- One news section block: heading, then either the article divs or the
empty-section placeholder (lines 183-196). -/
def renderNewsSec (title : String) (articles : List Article) : Except String String := do
  let body ←
    if articles.isEmpty then
      Except.ok "<p style=\x27color: #999;\x27>No articles found at this time.</p>\n"
    else renderArticles articles
  Except.ok ("<h2>" ++ title ++ "</h2>\n" ++ body)

/-- The loop body at lines 181-196: fetch the section's articles, then render
the block. -/
def newsSectionHtml (env : Env) (title query : String) (count : Nat) :
    Except String String :=
  renderNewsSec title (fetch_news env query count).1

/-- The `for section_title, (query, count) in news_sections.items()` loop. -/
def newsLoop (env : Env) : List (String × String × Nat) → Except String String
  | [] => Except.ok ""
  | (title, query, count) :: rest => do
      let b ← newsSectionHtml env title query count
      let r ← newsLoop env rest
      Except.ok (b ++ r)

/-- The NBA game template (lines 203-209): away @ home, scores, status. -/
def renderNbaGame (g : Game) : String :=
  "\n                <div class=\"score-item\">\n                    <div class=\"score-teams\">"
    ++ pyStr g.away ++ " @ " ++ pyStr g.home
    ++ "</div>\n                    <div class=\"score-final\">"
    ++ pyStr g.away_score ++ " - " ++ pyStr g.home_score
    ++ "</div>\n                    <div class=\"score-source\">"
    ++ pyStr g.status
    ++ "</div>\n                </div>\n                "

/-- The NBA section block (lines 199-211). -/
def nbaSecHtml (games : List Game) : String :=
  "<h2>üèÄ NBA Scores (Previous Day)</h2>\n"
    ++ (if games.isEmpty then "<p style=\x27color: #999;\x27>No games to display.</p>\n"
        else String.join (games.map renderNbaGame))

/-- Fetch-then-render for the NBA section. -/
def nbaBlock (env : Env) : String :=
  nbaSecHtml (fetch_nba_scores env).1.games

/-- The `<h2>` opening the soccer group (line 214). -/
def soccerHeaderHtml : String := "<h2>‚öΩ Soccer Scores</h2>\n"

/-- The soccer game template (lines 229-234): away vs home and the two
scores; unlike the NBA template there is NO status line. -/
def renderSoccerGame (g : Game) : String :=
  "\n                    <div class=\"score-item\">\n                        <div class=\"score-teams\">"
    ++ pyStr g.away ++ " vs " ++ pyStr g.home
    ++ "</div>\n                        <div class=\"score-final\">"
    ++ pyStr g.away_score ++ " - " ++ pyStr g.home_score
    ++ "</div>\n                    </div>\n                    "

/-- One soccer league block (lines 226-236). -/
def soccerSecHtml (league_name : String) (games : List Game) : String :=
  "<h3>" ++ league_name ++ "</h3>\n"
    ++ (if games.isEmpty then "<p style=\x27color: #999;\x27>No matches to display.</p>\n"
        else String.join (games.map renderSoccerGame))

/-- The loop body at lines 224-236: fetch a league's games, then render. -/
def soccerSectionHtml (env : Env) (league_name league : String) : String :=
  soccerSecHtml league_name (fetch_soccer_scores env league).1

/-- The `for league_name, league_id in soccer_leagues.items()` loop. -/
def soccerLoop (env : Env) : List (String × String) → String
  | [] => ""
  | (name, id) :: rest => soccerSectionHtml env name id ++ soccerLoop env rest

/-- `generate_html_digest` (lines 142-246): format the header template with
the current date (line 166), then append the news sections, the NBA block,
the soccer group and the footer.  An uncaught exception anywhere in the body
is the `Except.error` case. -/
def generate_html_digest (env : Env) : Except String String := do
  let header ← pyFormat headerTemplate env.dateHeader
  let newsHtml ← newsLoop env news_sections
  Except.ok (header ++ newsHtml ++ nbaBlock env ++ soccerHeaderHtml
    ++ soccerLoop env soccer_leagues ++ htmlFooter)

/-- Spec-side document model (spec §3): the ordered sections of one run,
fully fetched, with no rendering concerns.  The nine news sections, the NBA
scoreboard section and the six soccer league subsections in configured
order. -/
structure Digest where
  generated_at : String
  newsSections : List (String × List Article)
  nbaGames : List Game
  soccerSections : List (String × List Game)

/-- Aggregation phase: perform every fetch and build the document. -/
def aggregate (env : Env) : Digest :=
  { generated_at := env.dateHeader
  , newsSections := news_sections.map (fun s => (s.1, (fetch_news env s.2.1 s.2.2).1))
  , nbaGames := (fetch_nba_scores env).1.games
  , soccerSections := soccer_leagues.map (fun s => (s.1, (fetch_soccer_scores env s.2).1)) }

/-- Pure rendering of the prefetched news sections. -/
def renderNewsList : List (String × List Article) → Except String String
  | [] => Except.ok ""
  | (t, as) :: rest => do
      let b ← renderNewsSec t as
      let r ← renderNewsList rest
      Except.ok (b ++ r)

/-- Pure rendering of the prefetched soccer sections. -/
def renderSoccerList : List (String × List Game) → String
  | [] => ""
  | (name, gs) :: rest => soccerSecHtml name gs ++ renderSoccerList rest

/-- Modelled from the spec (§4.3): `render(Digest) -> artifact`, a pure
function of the document performing no adapter calls (it takes no `Env`). -/
def renderDigest (d : Digest) : Except String String := do
  let header ← pyFormat headerTemplate d.generated_at
  let newsHtml ← renderNewsList d.newsSections
  Except.ok (header ++ newsHtml ++ nbaSecHtml d.nbaGames ++ soccerHeaderHtml
    ++ renderSoccerList d.soccerSections ++ htmlFooter)

/-- The five environment variables read in `__init__` (lines 17-22); `none`
models an unset variable. -/
structure Config where
  news_api_key : Option String
  sports_api_key : Option String
  sender_email : Option String
  sender_password : Option String
  recipient_email : Option String

/-- Python truthiness of `os.environ.get(...)`: unset (`None`) and the empty
string are falsy. -/
def truthy : Option String → Bool
  | none => false
  | some s => !(s == "")

/-- The `all([...])` check of line 24 (note `sports_api_key` is not
checked). -/
def configOk (c : Config) : Bool :=
  truthy c.news_api_key && truthy c.sender_email
    && truthy c.sender_password && truthy c.recipient_email

/-- `send_email` (lines 248-265): any SMTP failure is printed and re-raised,
so the caller sees exactly the delivery outcome. -/
def send_email (env : Env) (html : String) : Except String Unit :=
  env.smtp html

/-- `main` (lines 267-277) as an exit code: a `ValueError` from `__init__`
(missing configuration), an exception escaping `generate_html_digest`, or a
re-raised `send_email` failure are each caught by the outer `except`, which
exits with code 1; otherwise the process ends normally with code 0. -/
def mainRun (env : Env) (cfg : Config) : Nat :=
  if !(configOk cfg) then 1
  else
    match generate_html_digest env with
    | Except.error _ => 1
    | Except.ok html =>
        match send_email env html with
        | Except.error _ => 1
        | Except.ok _ => 0

/-- `startsWithChars pat s`: `pat` is a prefix of `s` (computable, used to
state substring facts about rendered blocks). -/
def startsWithChars : List Char → List Char → Bool
  | [], _ => true
  | _ :: _, [] => false
  | p :: ps, c :: cs => p == c && startsWithChars ps cs

/-- `containsChars pat s`: `pat` occurs contiguously in `s`. -/
def containsChars (pat : List Char) : List Char → Bool
  | [] => startsWithChars pat []
  | c :: cs => startsWithChars pat (c :: cs) || containsChars pat cs

/-- `pat` occurs as a substring of `s`. -/
def containsStr (s pat : String) : Bool := containsChars pat.data s.data

/-- An environment in which every network request fails. -/
def envBoom : Env :=
  { http := fun _ => Except.error "boom", smtp := fun _ => Except.ok ()
  , dateHeader := "", dateYMD := "" }

/-- A NewsAPI payload whose single article carries explicit JSON `null`s in
`description`, `urlToImage` and `publishedAt` - the shape NewsAPI actually
produces for articles without a summary or image. -/
def payloadNulls : Json :=
  Json.obj [("articles", Json.arr [Json.obj
    [("title", Json.str "T"), ("description", Json.null), ("url", Json.str "u"),
     ("source", Json.obj [("name", Json.str "S")]), ("urlToImage", Json.null),
     ("publishedAt", Json.null)]])]

/-- Environment serving `payloadNulls` on every request. -/
def envNulls : Env :=
  { http := fun _ => Except.ok payloadNulls, smtp := fun _ => Except.ok ()
  , dateHeader := "D", dateYMD := "Y" }

/-- A fully populated configuration. -/
def cfgFull : Config :=
  { news_api_key := some "k", sports_api_key := some ""
  , sender_email := some "a@b", sender_password := some "pw"
  , recipient_email := some "c@d" }

/-- A NewsAPI payload with ten articles, titles `A1`..`A10` in provider
order. -/
def payloadTen : Json :=
  Json.obj [("articles", Json.arr
    [Json.obj [("title", Json.str "A1")], Json.obj [("title", Json.str "A2")],
     Json.obj [("title", Json.str "A3")], Json.obj [("title", Json.str "A4")],
     Json.obj [("title", Json.str "A5")], Json.obj [("title", Json.str "A6")],
     Json.obj [("title", Json.str "A7")], Json.obj [("title", Json.str "A8")],
     Json.obj [("title", Json.str "A9")], Json.obj [("title", Json.str "A10")]])]

/-- Environment serving `payloadTen` on every request. -/
def envTen : Env :=
  { http := fun _ => Except.ok payloadTen, smtp := fun _ => Except.ok ()
  , dateHeader := "", dateYMD := "" }

/-- The normalization of an article dict that only carries a title. -/
def titleOnly (t : String) : Article :=
  ⟨Json.str t, Json.str "", Json.str "", Json.str "", Json.str "", Json.str ""⟩

/-- A scoreboard event with one competition and two anonymous competitors -
just enough to pass the `len(competitors) >= 2` guard. -/
def minimalEvent : Json :=
  Json.obj [("competitions", Json.arr
    [Json.obj [("competitors", Json.arr [Json.obj [], Json.obj []])]])]

/-- An ESPN scoreboard payload with six events. -/
def payloadSix : Json :=
  Json.obj [("events", Json.arr
    [minimalEvent, minimalEvent, minimalEvent, minimalEvent, minimalEvent, minimalEvent])]

/-- Environment serving `payloadSix` on every request. -/
def envSix : Env :=
  { http := fun _ => Except.ok payloadSix, smtp := fun _ => Except.ok ()
  , dateHeader := "", dateYMD := "" }

/-- A well-formed scoreboard event: first competitor (ESPN slot taken as
home by the code) with display name `hn` and score `hs`, second competitor
with `an`/`as`, and a status description `st`. -/
def goodEvent (hn an hs as st : String) : Json :=
  Json.obj [("competitions", Json.arr [Json.obj
    [("competitors", Json.arr
      [Json.obj [("team", Json.obj [("displayName", Json.str hn)]), ("score", Json.str hs)],
       Json.obj [("team", Json.obj [("displayName", Json.str an)]), ("score", Json.str as)]]),
     ("status", Json.obj [("type", Json.obj [("description", Json.str st)])])]])]

/-- An event whose `competitions` key is present but holds an EMPTY list, so
`event.get('competitions', [{}])[0]` raises `IndexError`. -/
def emptyCompsEvent : Json :=
  Json.obj [("competitions", Json.arr [])]

/-- A scoreboard payload pairing the degenerate event with a fully
well-formed one. -/
def payloadAbort : Json :=
  Json.obj [("events", Json.arr
    [emptyCompsEvent, goodEvent "Lakers" "Celtics" "100" "90" "Final"])]

/-- Environment serving `payloadAbort` on every request. -/
def envAbort : Env :=
  { http := fun _ => Except.ok payloadAbort, smtp := fun _ => Except.ok ()
  , dateHeader := "", dateYMD := "" }

/-- Environment serving only the well-formed event. -/
def envGoodOnly : Env :=
  { http := fun _ => Except.ok (Json.obj [("events", Json.arr
      [goodEvent "Lakers" "Celtics" "100" "90" "Final"])])
  , smtp := fun _ => Except.ok (), dateHeader := "", dateYMD := "" }

/-- A concrete finished game record. -/
def gFT : Game :=
  ⟨Json.str "HomeFC", Json.str "AwayFC", Json.str "1", Json.str "2", Json.str "FT"⟩

/-- Splitting an `Except` bind that succeeded. -/
theorem bind_ok_elim {ε α β : Type} {x : Except ε α} {f : α → Except ε β} {b : β}
    (h : (x >>= f) = Except.ok b) : ∃ a, x = Except.ok a ∧ f a = Except.ok b := by
  cases x with
  | error e => exact Except.noConfusion h
  | ok a => exact ⟨a, rfl, h⟩

/-- The article-extraction loop produces one record per payload item. -/
theorem extractArticles_length : ∀ (l : List Json) (as : List Article),
    extractArticles l = Except.ok as → as.length = l.length := by
  intro l
  induction l with
  | nil =>
      intro as h
      rw [extractArticles] at h
      cases h
      rfl
  | cons a rest ih =>
      intro as h
      rw [extractArticles] at h
      cases hx : extractArticle a with
      | error e =>
          rw [hx] at h
          simp only [Bind.bind, Except.bind] at h
          exact Except.noConfusion h
      | ok x =>
          rw [hx] at h
          cases hxs : extractArticles rest with
          | error e =>
              rw [hxs] at h
              simp only [Bind.bind, Except.bind] at h
              exact Except.noConfusion h
          | ok xs =>
              rw [hxs] at h
              simp only [Bind.bind, Except.bind, Except.ok.injEq] at h
              rw [← h]
              simp [ih xs hxs]

/-- The event loop emits at most one game per event. -/
theorem scoreboardGames_length_le : ∀ (l : List Json) (gs : List Game),
    scoreboardGames l = Except.ok gs → gs.length ≤ l.length := by
  intro l
  induction l with
  | nil =>
      intro gs h
      rw [scoreboardGames] at h
      cases h
      simp
  | cons e rest ih =>
      intro gs h
      rw [scoreboardGames] at h
      cases hx : extractEvent e with
      | error err =>
          rw [hx] at h
          simp only [Bind.bind, Except.bind] at h
          exact Except.noConfusion h
      | ok g? =>
          rw [hx] at h
          cases hgs : scoreboardGames rest with
          | error err =>
              rw [hgs] at h
              simp only [Bind.bind, Except.bind] at h
              exact Except.noConfusion h
          | ok gs0 =>
              rw [hgs] at h
              simp only [Bind.bind, Except.bind, Except.ok.injEq] at h
              cases g? with
              | some g =>
                  rw [← h]
                  simpa using ih gs0 hgs
              | none =>
                  rw [← h]
                  exact Nat.le_succ_of_le (ih gs0 hgs)

/-- A successful slice-then-iterate yields at most `n` items. -/
theorem pySlice_pyIter_length_le (j j' : Json) (l : List Json) (n : Nat)
    (h1 : pySlice j n = Except.ok j') (h2 : pyIter j' = Except.ok l) :
    l.length ≤ n := by
  cases j with
  | arr xs =>
      rw [pySlice] at h1
      cases h1
      rw [pyIter] at h2
      cases h2
      simp [List.length_take]
  | str s =>
      rw [pySlice] at h1
      cases h1
      rw [pyIter] at h2
      cases h2
      simp [List.length_take]
  | null => exact Except.noConfusion h1
  | bool b => exact Except.noConfusion h1
  | num m => exact Except.noConfusion h1
  | obj kvs => exact Except.noConfusion h1

/-- A successful `fetch_news` body returns at most `num_articles` records. -/
theorem fetch_news_body_length_le (resp : Except String Json) (n : Nat)
    (as : List Article) (h : fetch_news_body resp n = Except.ok as) : as.length ≤ n := by
  rw [fetch_news_body] at h
  obtain ⟨data, hr, h⟩ := bind_ok_elim h
  obtain ⟨aj, h2, h⟩ := bind_ok_elim h
  obtain ⟨sj, h3, h⟩ := bind_ok_elim h
  obtain ⟨items, h4, h⟩ := bind_ok_elim h
  rw [extractArticles_length items as h]
  exact pySlice_pyIter_length_le aj sj items n h3 h4

/-- A successful `fetch_soccer_scores` body returns at most five records. -/
theorem soccer_body_length_le (resp : Except String Json)
    (gs : List Game) (h : soccer_body resp = Except.ok gs) : gs.length ≤ 5 := by
  rw [soccer_body] at h
  obtain ⟨data, hr, h⟩ := bind_ok_elim h
  obtain ⟨ej, h2, h⟩ := bind_ok_elim h
  obtain ⟨sj, h3, h⟩ := bind_ok_elim h
  obtain ⟨events, h4, h⟩ := bind_ok_elim h
  exact le_trans (scoreboardGames_length_le events gs h)
    (pySlice_pyIter_length_le ej sj events 5 h3 h4)

/-- `fetch_news` never returns more than `num_articles` records. -/
theorem fetch_news_length_le (env : Env) (query : String) (n : Nat) :
    ((fetch_news env query n).1).length ≤ n := by
  rw [fetch_news]
  cases h : fetch_news_body (env.http (newsRequest query n)) n with
  | error e => simp
  | ok as => simpa using fetch_news_body_length_le _ n as h

/-- `fetch_soccer_scores` never returns more than five records. -/
theorem fetch_soccer_length_le (env : Env) (league : String) :
    ((fetch_soccer_scores env league).1).length ≤ 5 := by
  rw [fetch_soccer_scores]
  cases leagueId league with
  | none => simp
  | some lid =>
      cases h : soccer_body (env.http (soccerUrl lid)) with
      | error e => simp [h]
      | ok gs => simp [h]; exact soccer_body_length_le _ gs h

/-- The news fetch-and-render loop equals pure rendering of the prefetched
sections. -/
theorem newsLoop_eq_renderNewsList (env : Env) :
    ∀ l : List (String × String × Nat),
      newsLoop env l =
        renderNewsList (l.map (fun s => (s.1, (fetch_news env s.2.1 s.2.2).1))) := by
  intro l
  induction l with
  | nil => rfl
  | cons s rest ih =>
      obtain ⟨t, q, n⟩ := s
      simp only [newsLoop, renderNewsList, List.map, newsSectionHtml, ih]

/-- The soccer fetch-and-render loop equals pure rendering of the prefetched
sections. -/
theorem soccerLoop_eq_renderSoccerList (env : Env) :
    ∀ l : List (String × String),
      soccerLoop env l =
        renderSoccerList (l.map (fun s => (s.1, (fetch_soccer_scores env s.2).1))) := by
  intro l
  induction l with
  | nil => rfl
  | cons s rest ih =>
      obtain ⟨name, id⟩ := s
      simp only [soccerLoop, renderSoccerList, List.map, soccerSectionHtml, ih]

/-- Formatting the header template raises `KeyError(' font-family')`: the
first replacement field `str.format` meets is the undoubled CSS rule
`body \x7b font-family: ... \x7d`, whose field name ` font-family` is looked up
as a missing keyword argument.  This happens on line 144-166, before any
fetch, on every run. -/
theorem generate_html_digest_keyerror (env : Env) :
    generate_html_digest env = Except.error "KeyError: \x27 font-family\x27" := rfl

/-- C1 (code bug): failure isolation never gets a chance to matter.  Whether
or not any single source adapter's request is forced to fail (first
conjunct: the environment is overridden to return an error for an arbitrary
request key `k`), `generate_html_digest` raises `KeyError(' font-family')`
while formatting the header template, before any adapter is invoked; the
run never completes and no digest is ever produced, contradicting "the run
itself still completes and the digest is still produced". -/
theorem digest_never_produced_regardless_of_adapter_failure (env : Env) (k e : String) :
    generate_html_digest
        { env with http := fun r => if r == k then Except.error e else env.http r } =
      Except.error "KeyError: \x27 font-family\x27"
  ∧ generate_html_digest env = Except.error "KeyError: \x27 font-family\x27" :=
  ⟨generate_html_digest_keyerror _, generate_html_digest_keyerror env⟩

/-- C2 (code bug): the rendered artifact never exists, so it contains no
block for any configured section.  The per-section block builders do render
a heading followed by the fixed placeholder for an empty section (second
to fourth conjuncts), but `generate_html_digest` dies in the header
`str.format` call before reaching any of them. -/
theorem artifact_never_rendered (env : Env) (title : String) :
    generate_html_digest env = Except.error "KeyError: \x27 font-family\x27"
  ∧ renderNewsSec title [] = Except.ok ("<h2>" ++ title ++ "</h2>\n"
      ++ "<p style=\x27color: #999;\x27>No articles found at this time.</p>\n")
  ∧ nbaSecHtml [] = "<h2>üèÄ NBA Scores (Previous Day)</h2>\n"
      ++ "<p style=\x27color: #999;\x27>No games to display.</p>\n"
  ∧ soccerSecHtml title [] = "<h3>" ++ title ++ "</h3>\n"
      ++ "<p style=\x27color: #999;\x27>No matches to display.</p>\n" :=
  ⟨generate_html_digest_keyerror env, rfl, rfl, rfl⟩

/-- C3 (confirmed): every adapter converts any internal error - transport,
HTTP status, JSON decoding or payload-shape exception, all of which are the
`Except.error` outcomes of its body - into a normal return carrying an
empty record sequence (for the NBA/NFL fetchers, a result whose `games`
field is the empty list) together with exactly one logged diagnostic. -/
theorem adapters_convert_errors_to_empty_and_log (env : Env) (query : String)
    (num_articles : Nat) (league league_id e : String) :
    (fetch_news_body (env.http (newsRequest query num_articles)) num_articles = Except.error e →
      fetch_news env query num_articles =
        ([], ["Error fetching news for \x27" ++ query ++ "\x27: " ++ e]))
  ∧ (scoreboard_body (env.http nbaUrl) = Except.error e →
      fetch_nba_scores env =
        ({ games := [], date := env.dateYMD }, ["Error fetching NBA scores: " ++ e]))
  ∧ (scoreboard_body (env.http nflUrl) = Except.error e →
      fetch_nfl_scores env = ({ games := [] }, ["Error fetching NFL scores: " ++ e]))
  ∧ (leagueId league = some league_id →
      soccer_body (env.http (soccerUrl league_id)) = Except.error e →
      fetch_soccer_scores env league =
        ([], ["Error fetching " ++ league ++ " scores: " ++ e])) := by
  refine ⟨?_, ?_, ?_, ?_⟩
  · intro h
    simp [fetch_news, h]
  · intro h
    simp [fetch_nba_scores, h]
  · intro h
    simp [fetch_nfl_scores, h]
  · intro hl h
    simp [fetch_soccer_scores, hl, h]

/-- C3 witness: in an environment where every request fails with `boom`,
all four adapters return empty records plus one diagnostic. -/
theorem adapters_convert_errors_to_empty_and_log_witness :
    fetch_news envBoom "World" 2 = ([], ["Error fetching news for \x27World\x27: boom"])
  ∧ fetch_nba_scores envBoom = ({ games := [], date := "" }, ["Error fetching NBA scores: boom"])
  ∧ fetch_nfl_scores envBoom = ({ games := [] }, ["Error fetching NFL scores: boom"])
  ∧ fetch_soccer_scores envBoom "premier-league" =
      ([], ["Error fetching premier-league scores: boom"]) := by
  have h := adapters_convert_errors_to_empty_and_log envBoom "World" 2
    "premier-league" "soccer/eng.1" "boom"
  exact ⟨h.1 rfl, h.2.1 rfl, h.2.2.1 rfl, h.2.2.2 rfl rfl⟩

/-- C4 (code bug): normalization does not replace JSON `null`s.  Python's
`article.get(key, default)` only substitutes the default when the key is
ABSENT; a key present with value `null` is returned as `None`.  On a payload
whose article has `description`, `urlToImage` and `publishedAt` equal to
`null`, `fetch_news` returns a record whose fields are `null`, not the
documented defaults. -/
theorem fetch_news_preserves_null_fields :
    fetch_news envNulls "US news" 5 =
      ([⟨Json.str "T", Json.null, Json.str "u", Json.str "S", Json.null, Json.null⟩], []) := rfl

/-- C5 counterexample: a 2-character summary, far below the 200-character
budget, is still rendered with the ellipsis marker appended, so the rendered
summary text is NOT the summary unchanged. -/
theorem short_summary_still_gets_ellipsis :
    ("hi".data.length ≤ 200)
  ∧ articleSummaryHtml (Json.str "hi") = Except.ok "hi..."
  ∧ (("hi..." == "hi") = false) :=
  ⟨by decide, rfl, by decide⟩

/-- C5 (corrected): the summary template `\x7bdescription[:200]\x7d...` keeps the
first 200 characters and appends the ellipsis marker UNCONDITIONALLY - also
when the summary is already within the budget. -/
theorem summary_truncated_with_unconditional_ellipsis (s : String) :
    articleSummaryHtml (Json.str s) = Except.ok (String.mk (s.data.take 200) ++ "...") := rfl

/-- C6 counterexample: `fetch_nba_scores` applies no result cap at all -
a payload with six well-formed events yields six records, exceeding the
claimed fixed fixture cap of five. -/
theorem nba_fetch_exceeds_fixture_cap :
    (fetch_nba_scores envSix).1.games.length = 6
  ∧ 5 < (fetch_nba_scores envSix).1.games.length :=
  ⟨rfl, by decide⟩

/-- C6 (corrected): `fetch_news` returns at most `num_articles` records and
`fetch_soccer_scores` at most five, in provider order - a query adapter
called with cap 3 against a ten-article payload returns exactly the first
three in provider order - but `fetch_nba_scores`/`fetch_nfl_scores` are
uncapped. -/
theorem news_and_soccer_caps_and_provider_order :
    (∀ (env : Env) (query : String) (n : Nat), ((fetch_news env query n).1).length ≤ n)
  ∧ (∀ (env : Env) (league : String), ((fetch_soccer_scores env league).1).length ≤ 5)
  ∧ fetch_news envTen "technology" 3 =
      ([titleOnly "A1", titleOnly "A2", titleOnly "A3"], []) :=
  ⟨fetch_news_length_le, fetch_soccer_length_le, rfl⟩

/-- C7 (code bug): the run NEVER succeeds.  For every environment - in
particular one with a fully valid configuration and an SMTP transport that
would accept the message - `main` exits with code 1, because
`generate_html_digest` raises `KeyError(' font-family')` and the outer
`except` catches it.  The claimed equivalence "failure iff missing
configuration or failed delivery" fails in the only direction the code can
exercise. -/
theorem run_always_exits_nonzero (env : Env) (cfg : Config) : mainRun env cfg = 1 := by
  cases h : configOk cfg <;>
    simp [mainRun, h, generate_html_digest_keyerror]

/-- C8 (confirmed): the digest generation factors into an aggregation phase
(every fetch, building the `Digest` document) followed by a pure render
phase: `renderDigest` takes only the document - no environment - so it can
perform no network or adapter calls, and composing it with `aggregate`
reproduces `generate_html_digest` exactly. -/
theorem generate_factors_into_aggregate_then_render (env : Env) :
    generate_html_digest env = renderDigest (aggregate env) := by
  simp only [generate_html_digest, renderDigest, aggregate,
    newsLoop_eq_renderNewsList, soccerLoop_eq_renderSoccerList, nbaBlock]

/-- C9 counterexample: the rendered soccer block for a finished game shows
"away vs home" and the joined score pair, but does NOT contain the game's
status text ("FT"), while the NBA template does render the status. -/
theorem soccer_block_lacks_status :
    containsStr (renderSoccerGame gFT) "AwayFC vs HomeFC" = true
  ∧ containsStr (renderSoccerGame gFT) "2 - 1" = true
  ∧ containsStr (renderSoccerGame gFT) "FT" = false
  ∧ containsStr (renderNbaGame gFT) "FT" = true :=
  ⟨rfl, rfl, rfl, rfl⟩

/-- C9 (corrected): the NBA block renders "away @ home", the score pair
joined by " - " and the status text; the soccer block renders
"away vs home" and the score pair but OMITS the status (the right-hand side
below never mentions `st`). -/
theorem score_block_shapes (hn an hs as st : String) :
    renderNbaGame ⟨Json.str hn, Json.str an, Json.str hs, Json.str as, Json.str st⟩ =
      "\n                <div class=\"score-item\">\n                    <div class=\"score-teams\">"
        ++ an ++ " @ " ++ hn
        ++ "</div>\n                    <div class=\"score-final\">"
        ++ as ++ " - " ++ hs
        ++ "</div>\n                    <div class=\"score-source\">"
        ++ st
        ++ "</div>\n                </div>\n                "
  ∧ renderSoccerGame ⟨Json.str hn, Json.str an, Json.str hs, Json.str as, Json.str st⟩ =
      "\n                    <div class=\"score-item\">\n                        <div class=\"score-teams\">"
        ++ an ++ " vs " ++ hn
        ++ "</div>\n                        <div class=\"score-final\">"
        ++ as ++ " - " ++ hs
        ++ "</div>\n                    </div>\n                    " :=
  ⟨rfl, rfl⟩

/-- C10 counterexample: an event whose `competitions` key holds an EMPTY
list defeats the guard - `event.get('competitions', [\x7b\x7d])[0]` raises
`IndexError`, the adapter's catch-all converts the WHOLE fetch to zero
records, and a perfectly well-formed event in the same payload is lost
rather than the bad event being silently skipped (third conjunct: the same
good event alone does produce its record). -/
theorem empty_competitions_list_aborts_whole_fetch :
    (fetch_nba_scores envAbort).1.games = []
  ∧ (fetch_nba_scores envAbort).2 =
      ["Error fetching NBA scores: IndexError: list index out of range"]
  ∧ (fetch_nba_scores envGoodOnly).1.games =
      [⟨Json.str "Lakers", Json.str "Celtics", Json.str "100", Json.str "90", Json.str "Final"⟩] :=
  ⟨rfl, rfl, rfl⟩

/-- C10 (corrected): a well-formed event with at least two competitors in
its first competition yields exactly one record taking home team/score from
the FIRST competitor and away team/score from the SECOND; an event with an
ABSENT `competitions` key is silently skipped via the `[\x7b\x7d]` default; but
an event whose `competitions` value is a present empty list raises
`IndexError` inside the loop, aborting the whole fetch. -/
theorem scoreboard_event_handling (hn an hs as st : String) :
    scoreboardGames [goodEvent hn an hs as st] =
      Except.ok [⟨Json.str hn, Json.str an, Json.str hs, Json.str as, Json.str st⟩]
  ∧ scoreboardGames [Json.obj []] = Except.ok []
  ∧ scoreboardGames [emptyCompsEvent] =
      Except.error "IndexError: list index out of range" :=
  ⟨rfl, rfl, rfl⟩
